import Mathlib

/-!
# Verification of the zdxsv SQLite storage layer

This file gives a shallow embedding, in Lean 4, of the storage layer of the
zdxsv lobby server (package `db`, file containing `SQLiteDB` and its methods)
and proves the specification claims about it.

Modelling conventions:
* The database state is a record of row lists (`DBState`), one list per table,
  plus the in-memory ranking cache (`SQLiteCache.rankingCache`), modelled as an
  association list from cache-key strings to ranking lists.
* Timestamps (`time.Now()`) are passed in as explicit `Nat` parameters.
* Generated tokens (`genLoginKey`, `genSessionID`, `genUserID`) are passed in
  as explicit `String` parameters: the generators are an opaque capability.
* SQL statements are translated to list operations with SQLite's documented
  semantics: an `UPDATE` matching zero rows succeeds, `TOTAL(x)` is a fold
  with zero identity (it never returns NULL), `INSERT` into a primary-key
  duplicate fails, a single-row `SELECT` matching zero rows yields
  `sql.ErrNoRows` (modelled as `DBErr.notFound`).
* `db.Exec` calls can fail at the driver level (I/O); where a claim is about
  such failures (`LoginUser`), the operation takes explicit Boolean
  fail-injection parameters, one per `Exec`, and returns the state reached.
* The schema-level migration (`Migrate`) manipulates tables generically by
  column lists, so it gets a second, untyped relational model (`Table`,
  `SqlDB`) further below, faithful to the SQL strings it executes.
-/

/-- One row of the `account` table.  Column defaults are those of the schema
DDL (`session_id text default ''`, etc.); `created`/`last_login` timestamps
are modelled as `Nat`. -/
structure Account where
  login_key : String
  session_id : String := ""
  last_user_id : String := ""
  created_ip : String := ""
  created : Nat := 0
  last_login : Nat := 0
  system : Int := 0
deriving DecidableEq, Repr

/-- One row of the `user` table, with the schema's column defaults. -/
structure User where
  user_id : String
  login_key : String
  session_id : String := ""
  name : String := "default"
  team : String := ""
  battle_count : Int := 0
  win_count : Int := 0
  lose_count : Int := 0
  kill_count : Int := 0
  death_count : Int := 0
  aeug_battle_count : Int := 0
  aeug_win_count : Int := 0
  aeug_lose_count : Int := 0
  aeug_kill_count : Int := 0
  aeug_death_count : Int := 0
  titans_battle_count : Int := 0
  titans_win_count : Int := 0
  titans_lose_count : Int := 0
  titans_kill_count : Int := 0
  titans_death_count : Int := 0
  daily_battle_count : Int := 0
  daily_win_count : Int := 0
  daily_lose_count : Int := 0
  created : Nat := 0
  system : Int := 0
deriving DecidableEq, Repr

/-- One row of the `battle_record` table, with the schema's column defaults. -/
structure BattleRecord where
  battle_code : String
  user_id : String
  user_name : String := ""
  pilot_name : String := ""
  players : Int := 0
  aggregate : Int := 0
  pos : Int := 0
  side : Int := 0
  round : Int := 0
  win : Int := 0
  lose : Int := 0
  kill : Int := 0
  death : Int := 0
  frame : Int := 0
  result : String := ""
  created : Nat := 0
  updated : Nat := 0
  system : Int := 0
deriving DecidableEq, Repr

/-- A row of the ranking query result (struct `RankingRecord`): the `RANK()`
value plus the identity and counter columns selected by the ranking query. -/
structure RankingRecord where
  rank : Nat
  user_id : String
  name : String
  team : String
  battle_count : Int
  win_count : Int
  lose_count : Int
  kill_count : Int
  death_count : Int
  aeug_battle_count : Int
  aeug_win_count : Int
  aeug_lose_count : Int
  aeug_kill_count : Int
  aeug_death_count : Int
  titans_battle_count : Int
  titans_win_count : Int
  titans_lose_count : Int
  titans_kill_count : Int
  titans_death_count : Int
deriving DecidableEq, Repr

/-- Result shape of the aggregate count queries (struct `BattleCountResult`):
`TOTAL(round)` is scanned into `Battle`, and so on. -/
structure BattleCountResult where
  Battle : Int
  Win : Int
  Lose : Int
  Kill : Int
  Death : Int
deriving DecidableEq, Repr

/-- Errors surfaced by the storage layer: `sql.ErrNoRows` from single-row
lookups, a primary-key violation from `INSERT`, and driver-level I/O
failure of an `Exec`. -/
inductive DBErr
  | notFound
  | conflict
  | ioFailure
deriving DecidableEq, Repr

/-- The full state of `SQLiteDB`: the three tables (as row lists) and the
embedded `SQLiteCache.rankingCache` map (as an association list from the
cache-key string to the cached ranking). -/
structure DBState where
  accounts : List Account
  users : List User
  battle_records : List BattleRecord
  rankingCache : List (String × List RankingRecord)
deriving DecidableEq, Repr

/-- `SQLiteCache.deleteRankingCache`: replaces the cache map by a fresh empty
map. -/
def deleteRankingCache (db : DBState) : DBState :=
  { db with rankingCache := [] }

/-- `RegisterAccount`: inserts a new `account` row with the generated
login key (passed as `key`), `created = last_login = now`, `system = 0`;
the remaining columns take their schema defaults.  The `INSERT` fails on a
duplicate primary key.  The returned `Account` struct is the Go literal,
which populates only `LoginKey` and `CreatedIP`. -/
def RegisterAccount (db : DBState) (key ip : String) (now : Nat) :
    Except DBErr (Account × DBState) :=
  if db.accounts.any (fun a => a.login_key == key) then
    .error .conflict
  else
    .ok ({ login_key := key, created_ip := ip },
      { db with accounts :=
          db.accounts ++ [{ login_key := key, created_ip := ip,
                            created := now, last_login := now, system := 0 }] })

/-- `RegisterAccountWithLoginKey`: as `RegisterAccount` but the login key is
caller-supplied. -/
def RegisterAccountWithLoginKey (db : DBState) (ip loginKey : String) (now : Nat) :
    Except DBErr (Account × DBState) :=
  if db.accounts.any (fun a => a.login_key == loginKey) then
    .error .conflict
  else
    .ok ({ login_key := loginKey, created_ip := ip },
      { db with accounts :=
          db.accounts ++ [{ login_key := loginKey, created_ip := ip,
                            created := now, last_login := now, system := 0 }] })

/-- `GetAccountByLoginKey`: single-row `SELECT` by primary key; zero matching
rows yield `sql.ErrNoRows`. -/
def GetAccountByLoginKey (db : DBState) (key : String) : Except DBErr Account :=
  match db.accounts.find? (fun a => a.login_key == key) with
  | some a => .ok a
  | none => .error .notFound

/-- `LoginAccount`: sets the passed struct's `SessionID` to the freshly
generated token (`sid`) and `LastLogin` to `now`, then runs
`UPDATE account SET session_id, last_login WHERE login_key`.  An `UPDATE`
matching zero rows still succeeds. -/
def LoginAccount (db : DBState) (a : Account) (sid : String) (now : Nat) :
    Account × DBState :=
  ({ a with session_id := sid, last_login := now },
   { db with accounts := db.accounts.map (fun x =>
       if x.login_key = a.login_key then
         { x with session_id := sid, last_login := now }
       else x) })

/-- `RegisterUser`: `INSERT INTO user (user_id, login_key, created)`; every
other column takes its schema default.  Fails on a duplicate
`(user_id, login_key)` primary key.  The returned Go struct populates only
`LoginKey`, `UserID`, `Created`. -/
def RegisterUser (db : DBState) (loginKey userID : String) (now : Nat) :
    Except DBErr (User × DBState) :=
  if db.users.any (fun u => u.user_id == userID && u.login_key == loginKey) then
    .error .conflict
  else
    .ok ({ user_id := userID, login_key := loginKey, session_id := "",
           name := "", team := "", created := now },
      { db with users :=
          db.users ++ [{ user_id := userID, login_key := loginKey, created := now }] })

/-- `GetUserList`: all `user` rows of one account. -/
def GetUserList (db : DBState) (loginKey : String) : List User :=
  db.users.filter (fun u => u.login_key == loginKey)

/-- `GetUser`: single-row lookup by `user_id` alone (global uniqueness of
`user_id` is assumed by construction of the generator). -/
def GetUser (db : DBState) (userID : String) : Except DBErr User :=
  match db.users.find? (fun u => u.user_id == userID) with
  | some u => .ok u
  | none => .error .notFound

/-- `LoginUser`: reads the owning account, then issues two separate `Exec`
statements with no wrapping transaction:
`UPDATE account SET last_user_id WHERE login_key` followed by
`UPDATE user SET session_id WHERE user_id`.  `fail1`/`fail2` inject a
driver-level failure of the first/second `Exec`; the returned state is the
state actually reached, so a failure of the second statement leaves the
first one applied. -/
def LoginUser (db : DBState) (user : User) (fail1 fail2 : Bool) :
    Except DBErr Unit × DBState :=
  match GetAccountByLoginKey db user.login_key with
  | .error e => (.error e, db)
  | .ok _ =>
    if fail1 then (.error .ioFailure, db)
    else
      let db1 := { db with accounts := db.accounts.map (fun a =>
        if a.login_key = user.login_key then
          { a with last_user_id := user.user_id }
        else a) }
      if fail2 then (.error .ioFailure, db1)
      else
        (.ok (),
         { db1 with users := db1.users.map (fun u =>
             if u.user_id = user.user_id then
               { u with session_id := user.session_id }
             else u) })

/-- `UpdateUser`: overwrites profile fields and every counter of the rows
matching `user_id` with the caller-supplied values. -/
def UpdateUser (db : DBState) (user : User) : DBState :=
  { db with users := db.users.map (fun u =>
      if u.user_id = user.user_id then
        { u with
          name := user.name, team := user.team,
          battle_count := user.battle_count, win_count := user.win_count,
          lose_count := user.lose_count, kill_count := user.kill_count,
          death_count := user.death_count,
          aeug_battle_count := user.aeug_battle_count,
          aeug_win_count := user.aeug_win_count,
          aeug_lose_count := user.aeug_lose_count,
          aeug_kill_count := user.aeug_kill_count,
          aeug_death_count := user.aeug_death_count,
          titans_battle_count := user.titans_battle_count,
          titans_win_count := user.titans_win_count,
          titans_lose_count := user.titans_lose_count,
          titans_kill_count := user.titans_kill_count,
          titans_death_count := user.titans_death_count,
          daily_battle_count := user.daily_battle_count,
          daily_win_count := user.daily_win_count,
          daily_lose_count := user.daily_lose_count,
          system := user.system }
      else u) }

/-- The `battle_record` row inserted by `AddBattleRecord`: the `INSERT`
column list names only the identity/position columns plus timestamps and
`system`; the result columns (`round` … `result`) take their schema
defaults, and `created = updated = now`. -/
def insertedBattleRow (rec : BattleRecord) (now : Nat) : BattleRecord :=
  { battle_code := rec.battle_code, user_id := rec.user_id,
    user_name := rec.user_name, pilot_name := rec.pilot_name,
    players := rec.players, aggregate := rec.aggregate,
    pos := rec.pos, side := rec.side,
    round := 0, win := 0, lose := 0, kill := 0, death := 0, frame := 0,
    result := "", created := now, updated := now, system := rec.system }

/-- `AddBattleRecord`: sets `Created = Updated = now` on the struct and
inserts it; the `INSERT` fails on a duplicate `(battle_code, user_id)`
primary key. -/
def AddBattleRecord (db : DBState) (rec : BattleRecord) (now : Nat) :
    Except DBErr DBState :=
  if db.battle_records.any (fun r =>
      r.battle_code == rec.battle_code && r.user_id == rec.user_id) then
    .error .conflict
  else
    .ok { db with battle_records := db.battle_records ++ [insertedBattleRow rec now] }

/-- The row transformation of `UpdateBattleRecord`'s `UPDATE` statement:
rows matching `(battle_code, user_id)` get the result fields, `system` and
`updated = now` overwritten; every other row and every other column is left
as it is. -/
def updateBattleRow (rec : BattleRecord) (now : Nat) (r : BattleRecord) :
    BattleRecord :=
  if r.battle_code = rec.battle_code ∧ r.user_id = rec.user_id then
    { r with round := rec.round, win := rec.win, lose := rec.lose,
             kill := rec.kill, death := rec.death, frame := rec.frame,
             result := rec.result, updated := now, system := rec.system }
  else r

/-- `UpdateBattleRecord`: sets `battle.Updated = now` and runs the `UPDATE`;
an `UPDATE` matching zero rows is not an error, and the driver reports
success, so the function returns `ok` and — when `battle.Aggregate ≠ 0` —
wipes the whole ranking cache (`deleteRankingCache`). -/
def UpdateBattleRecord (db : DBState) (rec : BattleRecord) (now : Nat) :
    Except DBErr DBState :=
  let db1 := { db with
    battle_records := db.battle_records.map (updateBattleRow rec now) }
  if rec.aggregate ≠ 0 then .ok (deleteRankingCache db1) else .ok db1

/-- `GetBattleRecordUser`: single-row lookup by the composite primary key. -/
def GetBattleRecordUser (db : DBState) (battleCode userID : String) :
    Except DBErr BattleRecord :=
  match db.battle_records.find? (fun r =>
      r.battle_code == battleCode && r.user_id == userID) with
  | some b => .ok b
  | none => .error .notFound

/-- SQLite's `TOTAL` aggregate on an integer column: a fold with zero
identity.  Unlike `SUM`, it returns `0` — never NULL — on an empty row set,
so scanning the result into the integer fields of `BattleCountResult`
cannot fail. -/
def sqlTOTAL (vs : List Int) : Int :=
  vs.foldl (· + ·) 0

/-- The `WHERE` clause of `CalculateUserTotalBattleCount` without the side
condition: `user_id = ? AND aggregate <> 0 AND players = 4`. -/
def totalCountFilter (userID : String) (r : BattleRecord) : Bool :=
  r.user_id == userID && r.aggregate != 0 && r.players == 4

/-- `CalculateUserTotalBattleCount`: two query shapes, chosen on `side == 0`;
the non-zero branch adds `AND side = ?`.  `side` is a Go `byte`, modelled as
a `Nat` compared against the integer `side` column. -/
def CalculateUserTotalBattleCount (db : DBState) (userID : String) (side : Nat) :
    BattleCountResult :=
  if side = 0 then
    let rows := db.battle_records.filter (totalCountFilter userID)
    { Battle := sqlTOTAL (rows.map (·.round)), Win := sqlTOTAL (rows.map (·.win)),
      Lose := sqlTOTAL (rows.map (·.lose)), Kill := sqlTOTAL (rows.map (·.kill)),
      Death := sqlTOTAL (rows.map (·.death)) }
  else
    let rows := db.battle_records.filter (fun r =>
      totalCountFilter userID r && r.side == (side : Int))
    { Battle := sqlTOTAL (rows.map (·.round)), Win := sqlTOTAL (rows.map (·.win)),
      Lose := sqlTOTAL (rows.map (·.lose)), Kill := sqlTOTAL (rows.map (·.kill)),
      Death := sqlTOTAL (rows.map (·.death)) }

/-- `CalculateUserDailyBattleCount`: the same aggregate restricted to rows
with `created > time.Now().AddDate(0, 0, -1)`; the cutoff timestamp is
passed in as `cutoff`. -/
def CalculateUserDailyBattleCount (db : DBState) (userID : String) (cutoff : Nat) :
    BattleCountResult :=
  let rows := db.battle_records.filter (fun r =>
    totalCountFilter userID r && decide (cutoff < r.created))
  { Battle := sqlTOTAL (rows.map (·.round)), Win := sqlTOTAL (rows.map (·.win)),
    Lose := sqlTOTAL (rows.map (·.lose)), Kill := sqlTOTAL (rows.map (·.kill)),
    Death := sqlTOTAL (rows.map (·.death)) }

/-- The cache key built by `fmt.Sprint("win", side)` / `fmt.Sprint("kill", side)`:
the metric name followed by the decimal rendering of the side byte. -/
def cacheKey (metric : String) (side : Nat) : String :=
  metric ++ toString side

/-- The column expression the win ranking orders by: `win_count` by default,
overridden to the per-faction counter for side 1 / side 2. -/
def winTarget (side : Nat) (u : User) : Int :=
  if side = 1 then u.aeug_win_count
  else if side = 2 then u.titans_win_count
  else u.win_count

/-- The column expression the kill ranking orders by. -/
def killTarget (side : Nat) (u : User) : Int :=
  if side = 1 then u.aeug_kill_count
  else if side = 2 then u.titans_kill_count
  else u.kill_count

/-- The same target expression read back from a scanned `RankingRecord`
(the ranking query selects all the counters, so the ordering column of a
result row is recoverable from the row). -/
def winTargetRec (side : Nat) (r : RankingRecord) : Int :=
  if side = 1 then r.aeug_win_count
  else if side = 2 then r.titans_win_count
  else r.win_count

/-- `killTarget` read back from a scanned `RankingRecord`. -/
def killTargetRec (side : Nat) (r : RankingRecord) : Int :=
  if side = 1 then r.aeug_kill_count
  else if side = 2 then r.titans_kill_count
  else r.kill_count

/-- SQL `RANK() OVER (ORDER BY target DESC)` of row `u` within the whole
`user` table: one plus the number of rows with a strictly greater target
value (competition ranking, so equal target values share a rank). -/
def sqlRank (target : User → Int) (users : List User) (u : User) : Nat :=
  1 + (users.filter (fun v => decide (target u < target v))).length

/-- Scanning one ranking result row into a `RankingRecord`, followed by the
UTF-8 sanitization step: a name or team that fails `utf8.ValidString`
(modelled by the predicate `valid`; a Go string may hold invalid UTF-8) is
replaced by the placeholder glyph. -/
def toRankingRecord (rk : Nat) (valid : String → Bool) (u : User) : RankingRecord :=
  { rank := rk,
    user_id := u.user_id,
    name := if valid u.name then u.name else "？",
    team := if valid u.team then u.team else "？",
    battle_count := u.battle_count, win_count := u.win_count,
    lose_count := u.lose_count, kill_count := u.kill_count,
    death_count := u.death_count,
    aeug_battle_count := u.aeug_battle_count, aeug_win_count := u.aeug_win_count,
    aeug_lose_count := u.aeug_lose_count, aeug_kill_count := u.aeug_kill_count,
    aeug_death_count := u.aeug_death_count,
    titans_battle_count := u.titans_battle_count,
    titans_win_count := u.titans_win_count,
    titans_lose_count := u.titans_lose_count,
    titans_kill_count := u.titans_kill_count,
    titans_death_count := u.titans_death_count }

/-- The ranking query
`SELECT RANK() OVER(ORDER BY target DESC) as rank, … FROM user
 ORDER BY rank LIMIT 100`
followed by the row-scan loop: all `user` rows ordered by the target column
descending (equivalently, by `rank` ascending; the order among tied rows is
unspecified in SQL and is fixed here by `mergeSort`), each row scanned and
sanitized, truncated to the first 100 rows. -/
def rankingQuery (users : List User) (target : User → Int)
    (valid : String → Bool) : List RankingRecord :=
  let sorted := users.mergeSort (fun a b => decide (target b ≤ target a))
  (sorted.map (fun u => toRankingRecord (sqlRank target users u) valid u)).take 100

/-- `GetWinCountRanking`: returns the cached ranking for key
`fmt.Sprint("win", side)` on a hit; on a miss runs the ranking query and
stores the result under the key before returning it. -/
def GetWinCountRanking (db : DBState) (valid : String → Bool) (side : Nat) :
    List RankingRecord × DBState :=
  let key := cacheKey "win" side
  match db.rankingCache.lookup key with
  | some ranking => (ranking, db)
  | none =>
    let ranking := rankingQuery db.users (winTarget side) valid
    (ranking, { db with rankingCache := (key, ranking) :: db.rankingCache })

/-- `GetKillCountRanking`: as `GetWinCountRanking` with the kill counters
and key prefix. -/
def GetKillCountRanking (db : DBState) (valid : String → Bool) (side : Nat) :
    List RankingRecord × DBState :=
  let key := cacheKey "kill" side
  match db.rankingCache.lookup key with
  | some ranking => (ranking, db)
  | none =>
    let ranking := rankingQuery db.users (killTarget side) valid
    (ranking, { db with rankingCache := (key, ranking) :: db.rankingCache })


/-! ## The schema-level model for `Migrate`

`Migrate` manipulates tables generically through SQL strings — rename, the
DDL in `schema`, `SELECT *`, and an `INSERT … SELECT` whose column list is
the old table's column list obtained by row introspection — so it is
modelled one level below the typed row model: a table is a column-name list
plus rows of SQL values. -/

/-- An SQL value as stored in a cell: SQLite integer, text, timestamp, or
NULL (the implicit default of a column the DDL gives no default for). -/
inductive Value
  | int : Int → Value
  | text : String → Value
  | time : Nat → Value
  | null : Value
deriving DecidableEq, Repr

/-- A table at the SQL level: its column names, in schema order, and its
rows, each a list of cell values aligned with the columns. -/
structure Table where
  cols : List String
  rows : List (List Value)
deriving DecidableEq, Repr

/-- The three managed tables, in the order of the `tables` slice of
`Migrate`.  The model assumes the three tables exist (any deployment that
ran `Init` has them), making the initial `CREATE TABLE IF NOT EXISTS`
execution of `Migrate` a no-op. -/
structure SqlDB where
  account : Table
  user : Table
  battle_record : Table
deriving DecidableEq, Repr

/-- The column list of the current `account` DDL. -/
def accountCols : List String :=
  ["login_key", "session_id", "last_user_id", "created_ip", "created",
   "last_login", "system"]

/-- The per-column defaults of the current `account` DDL; a column with no
`default` clause defaults to NULL. -/
def accountDefaults : List Value :=
  [.null, .text "", .text "", .text "", .null, .null, .int 0]

/-- The column list of the current `user` DDL. -/
def userCols : List String :=
  ["user_id", "login_key", "session_id", "name", "team",
   "battle_count", "win_count", "lose_count", "kill_count", "death_count",
   "aeug_battle_count", "aeug_win_count", "aeug_lose_count",
   "aeug_kill_count", "aeug_death_count",
   "titans_battle_count", "titans_win_count", "titans_lose_count",
   "titans_kill_count", "titans_death_count",
   "daily_battle_count", "daily_win_count", "daily_lose_count",
   "created", "system"]

/-- The per-column defaults of the current `user` DDL. -/
def userDefaults : List Value :=
  [.null, .null, .text "", .text "default", .text "",
   .int 0, .int 0, .int 0, .int 0, .int 0,
   .int 0, .int 0, .int 0, .int 0, .int 0,
   .int 0, .int 0, .int 0, .int 0, .int 0,
   .int 0, .int 0, .int 0,
   .null, .int 0]

/-- The column list of the current `battle_record` DDL. -/
def battleRecordCols : List String :=
  ["battle_code", "user_id", "user_name", "pilot_name", "players",
   "aggregate", "pos", "side", "round", "win", "lose", "kill", "death",
   "frame", "result", "created", "updated", "system"]

/-- The per-column defaults of the current `battle_record` DDL. -/
def battleRecordDefaults : List Value :=
  [.null, .null, .null, .null, .int 0,
   .int 0, .int 0, .int 0, .int 0, .int 0, .int 0, .int 0, .int 0,
   .int 0, .text "", .null, .null, .int 0]

/-- The row built by `INSERT INTO t(insertCols) VALUES (vals)` for a table
with schema columns `schemaCols` and per-column defaults `defaults`: each
schema column takes the value supplied for it by name, and its default
otherwise. -/
def buildInsertRow (schemaCols : List String) (defaults : List Value)
    (insertCols : List String) (vals : List Value) : List Value :=
  (schemaCols.zip defaults).map (fun cd =>
    ((insertCols.zip vals).lookup cd.1).getD cd.2)

/-- `INSERT INTO t(insertCols) SELECT * FROM tmp`: fails when the insert
column list names a column the target table does not have (SQLite rejects
the statement at prepare time); otherwise inserts every selected row. -/
def insertSelect (schemaCols : List String) (defaults : List Value)
    (insertCols : List String) (rows : List (List Value)) :
    Except String (List (List Value)) :=
  if insertCols.all (fun c => schemaCols.contains c) then
    .ok (rows.map (buildInsertRow schemaCols defaults insertCols))
  else
    .error "INSERT failed"

/-- The per-table body of `Migrate`'s copy loop: rename the old table to
`*_tmp`, create the fresh table from the current DDL, read the old table's
column list (`SELECT * FROM tmp LIMIT 1` followed by `rows.Columns()`,
which yields the column metadata even for an empty table), copy every row
across by `INSERT … SELECT`, and drop the temporary table. -/
def migrateTable (schemaCols : List String) (defaults : List Value)
    (old : Table) : Except String Table := do
  let rows ← insertSelect schemaCols defaults old.cols old.rows
  .ok { cols := schemaCols, rows := rows }

/-- `Migrate`: one all-or-nothing transaction over the three managed tables;
any failing statement rolls the whole transaction back, leaving the input
database untouched (the caller keeps the unchanged `SqlDB`), and the error
is returned. -/
def Migrate (db : SqlDB) : Except String SqlDB := do
  let a ← migrateTable accountCols accountDefaults db.account
  let u ← migrateTable userCols userDefaults db.user
  let b ← migrateTable battleRecordCols battleRecordDefaults db.battle_record
  .ok { account := a, user := u, battle_record := b }

/-- Well-formedness of a table at the SQL level: every row has one cell per
column.  SQL guarantees this for any real table. -/
def TableWF (t : Table) : Prop :=
  ∀ r ∈ t.rows, r.length = t.cols.length

/-! ## Helper lemmas -/

/-- Folding `TOTAL`'s running sum from an arbitrary accumulator. -/
theorem sqlTOTAL_foldl (l : List Int) : ∀ a : Int, l.foldl (· + ·) a = a + l.sum := by
  induction l with
  | nil => intro a; simp
  | cons x xs ih =>
    intro a
    simp only [List.foldl_cons, List.sum_cons, ih]
    ring

/-- `TOTAL` over an integer column is the list sum (in particular `0` on the
empty row set). -/
theorem sqlTOTAL_eq_sum (l : List Int) : sqlTOTAL l = l.sum := by
  simpa using sqlTOTAL_foldl l 0

/-- C1.  For every `user_id` and `side`, `CalculateUserTotalBattleCount`
returns exactly the component-wise sums of `round`, `win`, `lose`, `kill`,
`death` over the `battle_record` rows of that user with `aggregate ≠ 0` and
`players = 4`, additionally filtered by `side` when `side ≠ 0`; on an empty
match set it returns all zeroes — the query is a zero-identity fold and
cannot fail. -/
theorem totalBattleCount_is_componentwise_sum (db : DBState) (uid : String) (side : Nat) :
    CalculateUserTotalBattleCount db uid side =
      { Battle := ((db.battle_records.filter (fun r =>
            totalCountFilter uid r && (side == 0 || r.side == (side : Int)))).map (·.round)).sum,
        Win := ((db.battle_records.filter (fun r =>
            totalCountFilter uid r && (side == 0 || r.side == (side : Int)))).map (·.win)).sum,
        Lose := ((db.battle_records.filter (fun r =>
            totalCountFilter uid r && (side == 0 || r.side == (side : Int)))).map (·.lose)).sum,
        Kill := ((db.battle_records.filter (fun r =>
            totalCountFilter uid r && (side == 0 || r.side == (side : Int)))).map (·.kill)).sum,
        Death := ((db.battle_records.filter (fun r =>
            totalCountFilter uid r && (side == 0 || r.side == (side : Int)))).map (·.death)).sum } ∧
    (db.battle_records.filter (fun r =>
        totalCountFilter uid r && (side == 0 || r.side == (side : Int))) = [] →
      CalculateUserTotalBattleCount db uid side = ⟨0, 0, 0, 0, 0⟩) := by
  constructor
  · unfold CalculateUserTotalBattleCount
    by_cases h : side = 0
    · subst h
      simp only [if_pos rfl]
      have hf : db.battle_records.filter (totalCountFilter uid) =
          db.battle_records.filter (fun r =>
            totalCountFilter uid r && ((0 : Nat) == 0 || r.side == ((0 : Nat) : Int))) := by
        apply List.filter_congr
        intro r _
        simp
      rw [hf]
      simp [sqlTOTAL_eq_sum]
    · simp only [if_neg h]
      have hf : db.battle_records.filter (fun r =>
            totalCountFilter uid r && r.side == (side : Int)) =
          db.battle_records.filter (fun r =>
            totalCountFilter uid r && (side == 0 || r.side == (side : Int))) := by
        apply List.filter_congr
        intro r _
        have : (side == 0) = false := by
          simpa using h
        simp [this]
      rw [hf]
      simp [sqlTOTAL_eq_sum]
  · intro hempty
    unfold CalculateUserTotalBattleCount
    by_cases h : side = 0
    · subst h
      simp only [if_pos rfl]
      have hf : db.battle_records.filter (totalCountFilter uid) = [] := by
        rw [show (totalCountFilter uid) = (fun r =>
            totalCountFilter uid r && ((0 : Nat) == 0 || r.side == ((0 : Nat) : Int))) from ?_]
        · exact hempty
        · funext r; simp
      simp [hf, sqlTOTAL]
    · simp only [if_neg h]
      have hf : db.battle_records.filter (fun r =>
          totalCountFilter uid r && r.side == (side : Int)) = [] := by
        rw [show (fun r : BattleRecord =>
            totalCountFilter uid r && r.side == (side : Int)) = (fun r =>
            totalCountFilter uid r && (side == 0 || r.side == (side : Int))) from ?_]
        · exact hempty
        · funext r
          have : (side == 0) = false := by simpa using h
          simp [this]
      simp [hf, sqlTOTAL]

/-- A map that fixes every element of the list is the identity on it. -/
theorem map_eq_self_of_fixed {α : Type} (l : List α) (f : α → α)
    (h : ∀ x ∈ l, f x = x) : l.map f = l := by
  induction l with
  | nil => rfl
  | cons x xs ih =>
    simp only [List.map_cons]
    rw [h x (by simp), ih (fun y hy => h y (by simp [hy]))]

/-- `UpdateBattleRecord` always reports success; the resulting state maps
the `UPDATE` row transformation over `battle_record`, leaves the other
tables alone, and wipes the ranking cache exactly when `aggregate ≠ 0`. -/
theorem updateBattleRecord_ok (db : DBState) (rec : BattleRecord) (now : Nat) :
    ∃ db', UpdateBattleRecord db rec now = Except.ok db' ∧
      db'.battle_records = db.battle_records.map (updateBattleRow rec now) ∧
      db'.accounts = db.accounts ∧ db'.users = db.users ∧
      db'.rankingCache = (if rec.aggregate ≠ 0 then [] else db.rankingCache) := by
  unfold UpdateBattleRecord deleteRankingCache
  by_cases h : rec.aggregate ≠ 0
  · simp only [if_pos h]
    exact ⟨_, rfl, rfl, rfl, rfl, by simp [h]⟩
  · simp only [if_neg h]
    exact ⟨_, rfl, rfl, rfl, rfl, by simp [h]⟩

/-- The empty database and the record used to refute C3. -/
def c3db : DBState := ⟨[], [], [], []⟩

/-- An update record whose `(battle_code, user_id)` pair matches no row. -/
def c3rec : BattleRecord := { battle_code := "B1", user_id := "u1" }

/-- C3 counterexample.  No `battle_record` row exists for
`("B1", "u1")`, yet `UpdateBattleRecord` returns success (the SQL `UPDATE`
matches zero rows, which the driver does not report as an error), not a
NotFound error. -/
theorem updateBattleRecord_missing_row_no_error :
    c3db.battle_records = [] ∧
    UpdateBattleRecord c3db c3rec 7 = Except.ok c3db := by
  exact ⟨rfl, rfl⟩

/-- C3 amended.  `UpdateBattleRecord` on a `(battle_code, user_id)` pair
with no matching row succeeds without touching any row: the `UPDATE`
affects zero rows and the code never inspects the affected-row count. -/
theorem updateBattleRecord_missing_row_succeeds (db : DBState)
    (rec : BattleRecord) (now : Nat)
    (h : ∀ r ∈ db.battle_records,
      ¬(r.battle_code = rec.battle_code ∧ r.user_id = rec.user_id)) :
    ∃ db', UpdateBattleRecord db rec now = Except.ok db' ∧
      db'.battle_records = db.battle_records := by
  obtain ⟨db', hok, hrec, -, -, -⟩ := updateBattleRecord_ok db rec now
  refine ⟨db', hok, ?_⟩
  rw [hrec]
  apply map_eq_self_of_fixed
  intro r hr
  unfold updateBattleRow
  rw [if_neg (h r hr)]

/-- A database holding one unrelated battle record. -/
def c3wdb : DBState :=
  ⟨[], [], [{ battle_code := "X", user_id := "y", round := 3 }], []⟩

/-- Witness for the amended C3 at a concrete state. -/
theorem updateBattleRecord_missing_row_succeeds_witness :
    ∃ db', UpdateBattleRecord c3wdb c3rec 7 = Except.ok db' ∧
      db'.battle_records = c3wdb.battle_records :=
  updateBattleRecord_missing_row_succeeds c3wdb c3rec 7 (by decide)

/-- Indexing a mapped list, in `getD` form, at an in-range index. -/
theorem getD_map_of_lt {α : Type} (l : List α) (f : α → α) (i : Nat) (d : α)
    (hi : i < l.length) :
    (l.map f).getD i d = f (l.getD i d) := by
  have h := List.getElem?_eq_getElem (l := l) (n := i) hi
  simp [List.getD_eq_getElem?_getD, List.getElem?_map, h]

/-- C9.  `UpdateBattleRecord` updates the matching row in place: for every
row index, the identity and position fields (`battle_code`, `user_id`,
`user_name`, `pilot_name`, `players`, `aggregate`, `pos`, `side`,
`created`) are untouched; a row with a different `(battle_code, user_id)`
key is wholly unchanged; the matching row has exactly `round`, `win`,
`lose`, `kill`, `death`, `frame`, `result`, `system` overwritten from the
argument and `updated` set to now.  The row count never changes: no row is
deleted or re-created. -/
theorem updateBattleRecord_in_place (db : DBState) (rec : BattleRecord)
    (now : Nat) (d : BattleRecord) (i : Nat)
    (hi : i < db.battle_records.length) :
    ∃ db', UpdateBattleRecord db rec now = Except.ok db' ∧
      db'.battle_records.length = db.battle_records.length ∧
      (db'.battle_records.getD i d).battle_code = (db.battle_records.getD i d).battle_code ∧
      (db'.battle_records.getD i d).user_id = (db.battle_records.getD i d).user_id ∧
      (db'.battle_records.getD i d).user_name = (db.battle_records.getD i d).user_name ∧
      (db'.battle_records.getD i d).pilot_name = (db.battle_records.getD i d).pilot_name ∧
      (db'.battle_records.getD i d).players = (db.battle_records.getD i d).players ∧
      (db'.battle_records.getD i d).aggregate = (db.battle_records.getD i d).aggregate ∧
      (db'.battle_records.getD i d).pos = (db.battle_records.getD i d).pos ∧
      (db'.battle_records.getD i d).side = (db.battle_records.getD i d).side ∧
      (db'.battle_records.getD i d).created = (db.battle_records.getD i d).created ∧
      (¬((db.battle_records.getD i d).battle_code = rec.battle_code ∧
          (db.battle_records.getD i d).user_id = rec.user_id) →
        db'.battle_records.getD i d = db.battle_records.getD i d) ∧
      (((db.battle_records.getD i d).battle_code = rec.battle_code ∧
          (db.battle_records.getD i d).user_id = rec.user_id) →
        (db'.battle_records.getD i d).round = rec.round ∧
        (db'.battle_records.getD i d).win = rec.win ∧
        (db'.battle_records.getD i d).lose = rec.lose ∧
        (db'.battle_records.getD i d).kill = rec.kill ∧
        (db'.battle_records.getD i d).death = rec.death ∧
        (db'.battle_records.getD i d).frame = rec.frame ∧
        (db'.battle_records.getD i d).result = rec.result ∧
        (db'.battle_records.getD i d).system = rec.system ∧
        (db'.battle_records.getD i d).updated = now) := by
  obtain ⟨db', hok, hrec, -, -, -⟩ := updateBattleRecord_ok db rec now
  have hgd : db'.battle_records.getD i d =
      updateBattleRow rec now (db.battle_records.getD i d) := by
    rw [hrec]
    exact getD_map_of_lt _ _ _ _ hi
  refine ⟨db', hok, by rw [hrec]; simp, ?_⟩
  rw [hgd]
  unfold updateBattleRow
  by_cases hc : (db.battle_records.getD i d).battle_code = rec.battle_code ∧
      (db.battle_records.getD i d).user_id = rec.user_id
  · rw [if_pos hc]
    refine ⟨rfl, rfl, rfl, rfl, rfl, rfl, rfl, rfl, rfl, ?_, ?_⟩
    · intro hnc; exact absurd hc hnc
    · intro _; exact ⟨rfl, rfl, rfl, rfl, rfl, rfl, rfl, rfl, rfl⟩
  · rw [if_neg hc]
    refine ⟨rfl, rfl, rfl, rfl, rfl, rfl, rfl, rfl, rfl, ?_, ?_⟩
    · intro _; rfl
    · intro hc'; exact absurd hc' hc

/-- A one-row database for the C9 witness. -/
def c9db : DBState :=
  ⟨[], [], [{ battle_code := "B1", user_id := "u1", user_name := "n",
              pilot_name := "p", players := 4, aggregate := 1, pos := 2,
              side := 1, created := 10, updated := 10 }], []⟩

/-- The finalizing update applied in the C9 witness. -/
def c9rec : BattleRecord :=
  { battle_code := "B1", user_id := "u1", aggregate := 1, round := 1,
    win := 1, kill := 2, death := 1, frame := 99, result := "ok" }

/-- Witness for C9 at a concrete one-row state. -/
theorem updateBattleRecord_in_place_witness :
    ∃ db', UpdateBattleRecord c9db c9rec 20 = Except.ok db' ∧
      db'.battle_records.length = c9db.battle_records.length ∧
      (db'.battle_records.getD 0 c9rec).battle_code = (c9db.battle_records.getD 0 c9rec).battle_code ∧
      (db'.battle_records.getD 0 c9rec).user_id = (c9db.battle_records.getD 0 c9rec).user_id ∧
      (db'.battle_records.getD 0 c9rec).user_name = (c9db.battle_records.getD 0 c9rec).user_name ∧
      (db'.battle_records.getD 0 c9rec).pilot_name = (c9db.battle_records.getD 0 c9rec).pilot_name ∧
      (db'.battle_records.getD 0 c9rec).players = (c9db.battle_records.getD 0 c9rec).players ∧
      (db'.battle_records.getD 0 c9rec).aggregate = (c9db.battle_records.getD 0 c9rec).aggregate ∧
      (db'.battle_records.getD 0 c9rec).pos = (c9db.battle_records.getD 0 c9rec).pos ∧
      (db'.battle_records.getD 0 c9rec).side = (c9db.battle_records.getD 0 c9rec).side ∧
      (db'.battle_records.getD 0 c9rec).created = (c9db.battle_records.getD 0 c9rec).created ∧
      (¬((c9db.battle_records.getD 0 c9rec).battle_code = c9rec.battle_code ∧
          (c9db.battle_records.getD 0 c9rec).user_id = c9rec.user_id) →
        db'.battle_records.getD 0 c9rec = c9db.battle_records.getD 0 c9rec) ∧
      (((c9db.battle_records.getD 0 c9rec).battle_code = c9rec.battle_code ∧
          (c9db.battle_records.getD 0 c9rec).user_id = c9rec.user_id) →
        (db'.battle_records.getD 0 c9rec).round = c9rec.round ∧
        (db'.battle_records.getD 0 c9rec).win = c9rec.win ∧
        (db'.battle_records.getD 0 c9rec).lose = c9rec.lose ∧
        (db'.battle_records.getD 0 c9rec).kill = c9rec.kill ∧
        (db'.battle_records.getD 0 c9rec).death = c9rec.death ∧
        (db'.battle_records.getD 0 c9rec).frame = c9rec.frame ∧
        (db'.battle_records.getD 0 c9rec).result = c9rec.result ∧
        (db'.battle_records.getD 0 c9rec).system = c9rec.system ∧
        (db'.battle_records.getD 0 c9rec).updated = 20) :=
  updateBattleRecord_in_place c9db c9rec 20 c9rec 0 (by decide)

/-- C8.  After a successful `AddBattleRecord`, looking the record up by its
`(battle_code, user_id)` key succeeds and returns a row whose result fields
are all at their defaults (zero / empty) and whose `created` equals its
`updated` timestamp. -/
theorem addBattleRecord_then_get (db db' : DBState) (rec : BattleRecord)
    (now : Nat) (h : AddBattleRecord db rec now = Except.ok db') :
    ∃ r, GetBattleRecordUser db' rec.battle_code rec.user_id = Except.ok r ∧
      r.round = 0 ∧ r.win = 0 ∧ r.lose = 0 ∧ r.kill = 0 ∧ r.death = 0 ∧
      r.frame = 0 ∧ r.result = "" ∧ r.created = r.updated := by
  unfold AddBattleRecord at h
  by_cases hany : db.battle_records.any (fun r =>
      r.battle_code == rec.battle_code && r.user_id == rec.user_id)
  · rw [if_pos hany] at h
    exact absurd h (by simp)
  · rw [if_neg hany] at h
    have hdb' : db' = { db with battle_records :=
        db.battle_records ++ [insertedBattleRow rec now] } := by
      cases h
      rfl
    refine ⟨insertedBattleRow rec now, ?_, rfl, rfl, rfl, rfl, rfl, rfl, rfl, rfl⟩
    unfold GetBattleRecordUser
    rw [hdb']
    simp only [List.any_eq_true, not_exists, not_and] at hany
    have hnone : db.battle_records.find? (fun r =>
        r.battle_code == rec.battle_code && r.user_id == rec.user_id) = none := by
      rw [List.find?_eq_none]
      intro x hx hpx
      simp only [Bool.and_eq_true, beq_iff_eq] at hpx
      exact absurd (by simpa using hpx) (by simpa using hany x hx)
    simp only [List.find?_append, hnone, Option.none_or]
    have hhit : (fun r : BattleRecord =>
        r.battle_code == rec.battle_code && r.user_id == rec.user_id)
        (insertedBattleRow rec now) = true := by
      simp [insertedBattleRow]
    simp [List.find?, hhit]

/-- The starting state and inserted record for the C8 witness. -/
def c8db : DBState :=
  ⟨[], [], [{ battle_code := "B0", user_id := "u9" }], []⟩

/-- The record inserted in the C8 witness; its result fields are nonzero to
show the `INSERT` column list discards them. -/
def c8rec : BattleRecord :=
  { battle_code := "B1", user_id := "u1", user_name := "n", players := 4,
    aggregate := 1, pos := 1, side := 2, round := 9, win := 9, result := "x" }

/-- The state after the C8 witness insertion. -/
def c8db' : DBState :=
  ⟨[], [], [{ battle_code := "B0", user_id := "u9" },
            insertedBattleRow c8rec 5], []⟩

/-- Witness for C8 at a concrete insertion. -/
theorem addBattleRecord_then_get_witness :
    ∃ r, GetBattleRecordUser c8db' c8rec.battle_code c8rec.user_id = Except.ok r ∧
      r.round = 0 ∧ r.win = 0 ∧ r.lose = 0 ∧ r.kill = 0 ∧ r.death = 0 ∧
      r.frame = 0 ∧ r.result = "" ∧ r.created = r.updated :=
  addBattleRecord_then_get c8db c8db' c8rec 5 (by rfl)

/-- The one-account, one-user database of the C4 scenario. -/
def c4db : DBState :=
  ⟨[{ login_key := "k" }], [{ user_id := "u1", login_key := "k" }], [], []⟩

/-- The logging-in user of the C4 scenario, carrying the fresh session
token to be written to the `user` row. -/
def c4user : User := { user_id := "u1", login_key := "k", session_id := "s9" }

/-- C4.  `LoginUser` issues its two `UPDATE` statements with no wrapping
transaction, so a driver failure of the second statement is an execution
in which the account's `last_user_id` write is applied while the user row's
`session_id` write is not: the call reports an error, the account row
already points at the user, and the user row still has its old (empty)
session token.  This is the partial outcome the claim rules out. -/
theorem loginUser_partial_write :
    (LoginUser c4db c4user false true).1 = Except.error DBErr.ioFailure ∧
    (LoginUser c4db c4user false true).2.accounts.map Account.last_user_id = ["u1"] ∧
    (LoginUser c4db c4user false true).2.users.map User.session_id = [""] ∧
    c4user.session_id = "s9" := by
  refine ⟨?_, ?_, ?_, rfl⟩ <;> rfl

/-- Looking up an existing key after prepending a fresh entry still finds
the old value: a cache-miss insertion removes nothing. -/
theorem lookup_preserved_by_fresh_insert (c : List (String × List RankingRecord))
    (key k : String) (r v : List RankingRecord)
    (hmiss : c.lookup key = none) (hk : c.lookup k = some v) :
    ((key, r) :: c).lookup k = some v := by
  rw [List.lookup_cons]
  have hne : (k == key) = false := by
    rw [beq_eq_false_iff_ne]
    intro he
    subst he
    rw [hk] at hmiss
    exact absurd hmiss (by simp)
  rw [hne]
  exact hk

/-- C2.  The cache-invalidation policy of the store: a successful
`UpdateBattleRecord` with `aggregate ≠ 0` wipes the entire ranking cache;
with `aggregate = 0` it removes nothing; and no other store operation
removes a cache entry — the registration, login, update, and insert
operations leave the cache map untouched, and the two ranking reads only
ever add an entry on a miss, preserving every entry already present. -/
theorem rankingCache_invalidation_policy
    (db : DBState) (rec : BattleRecord) (now : Nat)
    (a : Account) (usr : User) (key ip loginKey userID sid : String)
    (valid : String → Bool) (s : Nat) (f1 f2 : Bool)
    (k : String) (v : List RankingRecord) :
    (rec.aggregate ≠ 0 → ∃ db', UpdateBattleRecord db rec now = Except.ok db' ∧
      db'.rankingCache = []) ∧
    (rec.aggregate = 0 → ∃ db', UpdateBattleRecord db rec now = Except.ok db' ∧
      db'.rankingCache = db.rankingCache) ∧
    (∀ x db', RegisterAccount db key ip now = Except.ok (x, db') →
      db'.rankingCache = db.rankingCache) ∧
    (∀ x db', RegisterAccountWithLoginKey db ip key now = Except.ok (x, db') →
      db'.rankingCache = db.rankingCache) ∧
    (LoginAccount db a sid now).2.rankingCache = db.rankingCache ∧
    (∀ x db', RegisterUser db loginKey userID now = Except.ok (x, db') →
      db'.rankingCache = db.rankingCache) ∧
    (LoginUser db usr f1 f2).2.rankingCache = db.rankingCache ∧
    (UpdateUser db usr).rankingCache = db.rankingCache ∧
    (∀ db', AddBattleRecord db rec now = Except.ok db' →
      db'.rankingCache = db.rankingCache) ∧
    (db.rankingCache.lookup k = some v →
      (GetWinCountRanking db valid s).2.rankingCache.lookup k = some v) ∧
    (db.rankingCache.lookup k = some v →
      (GetKillCountRanking db valid s).2.rankingCache.lookup k = some v) := by
  refine ⟨?_, ?_, ?_, ?_, ?_, ?_, ?_, ?_, ?_, ?_, ?_⟩
  · intro hagg
    obtain ⟨db', hok, -, -, -, hc⟩ := updateBattleRecord_ok db rec now
    exact ⟨db', hok, by rwa [if_pos hagg] at hc⟩
  · intro hagg
    obtain ⟨db', hok, -, -, -, hc⟩ := updateBattleRecord_ok db rec now
    exact ⟨db', hok, by rwa [if_neg (by simp [hagg])] at hc⟩
  · intro x db' h
    unfold RegisterAccount at h
    split at h
    · exact absurd h (by simp)
    · cases h; rfl
  · intro x db' h
    unfold RegisterAccountWithLoginKey at h
    split at h
    · exact absurd h (by simp)
    · cases h; rfl
  · rfl
  · intro x db' h
    unfold RegisterUser at h
    split at h
    · exact absurd h (by simp)
    · cases h; rfl
  · unfold LoginUser
    cases hacc : GetAccountByLoginKey db usr.login_key with
    | error e => rfl
    | ok acc => cases f1 <;> cases f2 <;> rfl
  · rfl
  · intro db' h
    unfold AddBattleRecord at h
    split at h
    · exact absurd h (by simp)
    · cases h; rfl
  · intro hk
    cases hl : db.rankingCache.lookup (cacheKey "win" s) with
    | some r => simpa [GetWinCountRanking, hl] using hk
    | none =>
      simpa [GetWinCountRanking, hl] using
        lookup_preserved_by_fresh_insert db.rankingCache (cacheKey "win" s) k
          (rankingQuery db.users (winTarget s) valid) v hl hk
  · intro hk
    cases hl : db.rankingCache.lookup (cacheKey "kill" s) with
    | some r => simpa [GetKillCountRanking, hl] using hk
    | none =>
      simpa [GetKillCountRanking, hl] using
        lookup_preserved_by_fresh_insert db.rankingCache (cacheKey "kill" s) k
          (rankingQuery db.users (killTarget s) valid) v hl hk

/-- The concrete state for the C2 witness, holding one cached leaderboard. -/
def c2wdb : DBState :=
  ⟨[{ login_key := "k" }], [{ user_id := "u1", login_key := "k" }], [],
   [("kill0", [])]⟩

/-- The aggregate-eligible update record of the C2 witness. -/
def c2wrec : BattleRecord :=
  { battle_code := "B", user_id := "u1", aggregate := 1 }

/-- Witness for C2 at a concrete state with a populated cache entry. -/
theorem rankingCache_invalidation_policy_witness :
    (c2wrec.aggregate ≠ 0 → ∃ db', UpdateBattleRecord c2wdb c2wrec 3 = Except.ok db' ∧
      db'.rankingCache = []) ∧
    (c2wrec.aggregate = 0 → ∃ db', UpdateBattleRecord c2wdb c2wrec 3 = Except.ok db' ∧
      db'.rankingCache = c2wdb.rankingCache) ∧
    (∀ x db', RegisterAccount c2wdb "nk" "1.2.3.4" 3 = Except.ok (x, db') →
      db'.rankingCache = c2wdb.rankingCache) ∧
    (∀ x db', RegisterAccountWithLoginKey c2wdb "1.2.3.4" "nk" 3 = Except.ok (x, db') →
      db'.rankingCache = c2wdb.rankingCache) ∧
    (LoginAccount c2wdb { login_key := "k" } "s" 3).2.rankingCache = c2wdb.rankingCache ∧
    (∀ x db', RegisterUser c2wdb "k" "u2" 3 = Except.ok (x, db') →
      db'.rankingCache = c2wdb.rankingCache) ∧
    (LoginUser c2wdb { user_id := "u1", login_key := "k" } false false).2.rankingCache =
      c2wdb.rankingCache ∧
    (UpdateUser c2wdb { user_id := "u1", login_key := "k" }).rankingCache =
      c2wdb.rankingCache ∧
    (∀ db', AddBattleRecord c2wdb c2wrec 3 = Except.ok db' →
      db'.rankingCache = c2wdb.rankingCache) ∧
    (c2wdb.rankingCache.lookup "kill0" = some [] →
      (GetWinCountRanking c2wdb (fun _ => true) 0).2.rankingCache.lookup "kill0" = some []) ∧
    (c2wdb.rankingCache.lookup "kill0" = some [] →
      (GetKillCountRanking c2wdb (fun _ => true) 0).2.rankingCache.lookup "kill0" = some []) :=
  rankingCache_invalidation_policy c2wdb c2wrec 3 { login_key := "k" }
    { user_id := "u1", login_key := "k" } "nk" "1.2.3.4" "k" "u2" "s"
    (fun _ => true) 0 false false "kill0" []

/-- The shape every leaderboard served by the ranking queries has, with the
ordering column read back through `target`: at most 100 entries, sorted
descending by the target counter, and equal counter values sharing a rank. -/
def SortedRanking (target : RankingRecord → Int) (l : List RankingRecord) : Prop :=
  l.length ≤ 100 ∧
  l.Pairwise (fun a b => target b ≤ target a) ∧
  ∀ a ∈ l, ∀ b ∈ l, target a = target b → a.rank = b.rank

/-- Every list produced by the ranking query is a well-shaped leaderboard,
provided reading the target column back from a scanned record agrees with
the target column of the user row it came from. -/
theorem rankingQuery_sortedRanking (users : List User) (target : User → Int)
    (targetR : RankingRecord → Int) (valid : String → Bool)
    (hcomm : ∀ n v u, targetR (toRankingRecord n v u) = target u) :
    SortedRanking targetR (rankingQuery users target valid) := by
  unfold rankingQuery
  refine ⟨?_, ?_, ?_⟩
  · simp [List.length_take]
  · apply List.Pairwise.sublist (List.take_sublist _ _)
    rw [List.pairwise_map]
    have hsorted : (users.mergeSort (fun a b => decide (target b ≤ target a))).Pairwise
        (fun a b => decide (target b ≤ target a) = true) := by
      apply List.sorted_mergeSort
      · intro a b c hab hbc
        simp only [decide_eq_true_eq] at hab hbc ⊢
        exact le_trans hbc hab
      · intro a b
        simp only [Bool.or_eq_true, decide_eq_true_eq]
        exact le_total (target b) (target a)
    apply hsorted.imp
    intro a b hab
    simp only [decide_eq_true_eq] at hab
    rw [hcomm, hcomm]
    exact hab
  · intro a ha b hb htie
    obtain ⟨ua, -, hfa⟩ := List.mem_map.mp (List.mem_of_mem_take ha)
    obtain ⟨ub, -, hfb⟩ := List.mem_map.mp (List.mem_of_mem_take hb)
    have hta : targetR a = target ua := by rw [← hfa, hcomm]
    have htb : targetR b = target ub := by rw [← hfb, hcomm]
    have htu : target ua = target ub := by rw [← hta, ← htb, htie]
    have hrka : a.rank = sqlRank target users ua := by rw [← hfa]; rfl
    have hrkb : b.rank = sqlRank target users ub := by rw [← hfb]; rfl
    rw [hrka, hrkb]
    unfold sqlRank
    rw [htu]

/-- The invariant the ranking cache maintains: every cached list is a
well-shaped leaderboard for its key. -/
def CacheWF (db : DBState) : Prop :=
  ∀ s : Nat,
    (∀ l, db.rankingCache.lookup (cacheKey "win" s) = some l →
      SortedRanking (winTargetRec s) l) ∧
    (∀ l, db.rankingCache.lookup (cacheKey "kill" s) = some l →
      SortedRanking (killTargetRec s) l)

/-- Reading the win target back from a scanned record recovers the user
row's win target. -/
theorem winTargetRec_toRankingRecord (s n : Nat) (v : String → Bool) (u : User) :
    winTargetRec s (toRankingRecord n v u) = winTarget s u := by
  unfold winTargetRec winTarget toRankingRecord
  split_ifs <;> rfl

/-- Reading the kill target back from a scanned record recovers the user
row's kill target. -/
theorem killTargetRec_toRankingRecord (s n : Nat) (v : String → Bool) (u : User) :
    killTargetRec s (toRankingRecord n v u) = killTarget s u := by
  unfold killTargetRec killTarget toRankingRecord
  split_ifs <;> rfl

/-- C7.  Every leaderboard returned by `GetWinCountRanking` or
`GetKillCountRanking` — from a cache whose entries were themselves produced
by the ranking query — has at most 100 entries, is sorted descending by the
requested side's counter, and gives users with equal counter values the
same rank (competition ranking), rather than an arbitrary stable order. -/
theorem ranking_sorted_bounded_dense (db : DBState) (valid : String → Bool)
    (side : Nat) (h : CacheWF db) :
    SortedRanking (winTargetRec side) (GetWinCountRanking db valid side).1 ∧
    SortedRanking (killTargetRec side) (GetKillCountRanking db valid side).1 := by
  constructor
  · cases hl : db.rankingCache.lookup (cacheKey "win" side) with
    | some r =>
      have := (h side).1 r hl
      simpa [GetWinCountRanking, hl] using this
    | none =>
      have := rankingQuery_sortedRanking db.users (winTarget side)
        (winTargetRec side) valid (fun n v u => winTargetRec_toRankingRecord side n v u)
      simpa [GetWinCountRanking, hl] using this
  · cases hl : db.rankingCache.lookup (cacheKey "kill" side) with
    | some r =>
      have := (h side).2 r hl
      simpa [GetKillCountRanking, hl] using this
    | none =>
      have := rankingQuery_sortedRanking db.users (killTarget side)
        (killTargetRec side) valid (fun n v u => killTargetRec_toRankingRecord side n v u)
      simpa [GetKillCountRanking, hl] using this

/-- A three-user table with a tie, for the C7 witness. -/
def c7wdb : DBState :=
  ⟨[], [{ user_id := "a", login_key := "k", win_count := 5, kill_count := 2 },
        { user_id := "b", login_key := "k", win_count := 5, kill_count := 9 },
        { user_id := "c", login_key := "k", win_count := 7, kill_count := 2 }],
   [], []⟩

/-- Witness for C7 on a concrete table with tied counters and an empty
cache. -/
theorem ranking_sorted_bounded_dense_witness :
    SortedRanking (winTargetRec 0) (GetWinCountRanking c7wdb (fun _ => true) 0).1 ∧
    SortedRanking (killTargetRec 0) (GetKillCountRanking c7wdb (fun _ => true) 0).1 :=
  ranking_sorted_bounded_dense c7wdb (fun _ => true) 0
    (fun s => ⟨fun l hl => by simp [c7wdb] at hl, fun l hl => by simp [c7wdb] at hl⟩)

/-- Any side byte other than 1 and 2 falls through to the overall win
counter. -/
theorem winTarget_fallback (s : Nat) (h1 : s ≠ 1) (h2 : s ≠ 2) :
    winTarget s = winTarget 0 := by
  funext u
  simp [winTarget, h1, h2]

/-- Any side byte other than 1 and 2 falls through to the overall kill
counter. -/
theorem killTarget_fallback (s : Nat) (h1 : s ≠ 1) (h2 : s ≠ 2) :
    killTarget s = killTarget 0 := by
  funext u
  simp [killTarget, h1, h2]

/-- Distinct side bytes yield distinct cache-key strings (checked for the
keys the fallback claim compares, over the whole byte range). -/
theorem cacheKey_side_ne_zero (t : Nat) (ht : t < 256) (h0 : t ≠ 0) :
    cacheKey "win" t ≠ cacheKey "win" 0 ∧ cacheKey "kill" t ≠ cacheKey "kill" 0 := by
  unfold cacheKey
  revert h0 ht
  revert t
  set_option maxRecDepth 4096 in decide

/-- C10.  For every side byte outside `{1, 2}` — not only 0 — the two
ranking reads order by the overall counters, returning (on a cache miss)
exactly the sequence side 0 returns, while still storing the result under
that side's own cache key, which differs from side 0's key whenever the
side byte is nonzero. -/
theorem ranking_side_fallback (db : DBState) (valid : String → Bool) (s : Nat)
    (hs : s < 256) (h1 : s ≠ 1) (h2 : s ≠ 2)
    (hw : db.rankingCache.lookup (cacheKey "win" s) = none)
    (hw0 : db.rankingCache.lookup (cacheKey "win" 0) = none)
    (hk : db.rankingCache.lookup (cacheKey "kill" s) = none)
    (hk0 : db.rankingCache.lookup (cacheKey "kill" 0) = none) :
    (GetWinCountRanking db valid s).1 = (GetWinCountRanking db valid 0).1 ∧
    (GetKillCountRanking db valid s).1 = (GetKillCountRanking db valid 0).1 ∧
    (GetWinCountRanking db valid s).2.rankingCache.lookup (cacheKey "win" s) =
      some (GetWinCountRanking db valid s).1 ∧
    (GetKillCountRanking db valid s).2.rankingCache.lookup (cacheKey "kill" s) =
      some (GetKillCountRanking db valid s).1 ∧
    (s ≠ 0 → cacheKey "win" s ≠ cacheKey "win" 0 ∧
      cacheKey "kill" s ≠ cacheKey "kill" 0) := by
  refine ⟨?_, ?_, ?_, ?_, fun h0 => cacheKey_side_ne_zero s hs h0⟩
  · simp only [GetWinCountRanking, hw, hw0]
    rw [winTarget_fallback s h1 h2]
  · simp only [GetKillCountRanking, hk, hk0]
    rw [killTarget_fallback s h1 h2]
  · simp only [GetWinCountRanking, hw]
    exact List.lookup_cons_self
  · simp only [GetKillCountRanking, hk]
    exact List.lookup_cons_self

/-- A one-user table with an empty cache for the C10 witness. -/
def c10wdb : DBState :=
  ⟨[], [{ user_id := "a", login_key := "k", win_count := 3,
          aeug_win_count := 8, kill_count := 1, aeug_kill_count := 9 }], [], []⟩

/-- Witness for C10 at side byte 3. -/
theorem ranking_side_fallback_witness :
    (GetWinCountRanking c10wdb (fun _ => true) 3).1 =
      (GetWinCountRanking c10wdb (fun _ => true) 0).1 ∧
    (GetKillCountRanking c10wdb (fun _ => true) 3).1 =
      (GetKillCountRanking c10wdb (fun _ => true) 0).1 ∧
    (GetWinCountRanking c10wdb (fun _ => true) 3).2.rankingCache.lookup (cacheKey "win" 3) =
      some (GetWinCountRanking c10wdb (fun _ => true) 3).1 ∧
    (GetKillCountRanking c10wdb (fun _ => true) 3).2.rankingCache.lookup (cacheKey "kill" 3) =
      some (GetKillCountRanking c10wdb (fun _ => true) 3).1 ∧
    ((3 : Nat) ≠ 0 → cacheKey "win" 3 ≠ cacheKey "win" 0 ∧
      cacheKey "kill" 3 ≠ cacheKey "kill" 0) :=
  ranking_side_fallback c10wdb (fun _ => true) 3 (by decide) (by decide) (by decide)
    rfl rfl rfl rfl

/-- Inserting a row back into a table with exactly the columns it was
selected from reproduces the row: every schema column finds its own value
by name. -/
theorem buildInsertRow_self (cols : List String) (defaults vals : List Value)
    (hnd : cols.Nodup) (hlen : vals.length = cols.length)
    (hdef : defaults.length = cols.length) :
    buildInsertRow cols defaults cols vals = vals := by
  induction cols generalizing defaults vals with
  | nil =>
    cases vals with
    | nil => rfl
    | cons v vs => simp at hlen
  | cons c cs ih =>
    cases vals with
    | nil => simp at hlen
    | cons v vs =>
      cases defaults with
      | nil => simp at hdef
      | cons d ds =>
        have hc : c ∉ cs := (List.nodup_cons.mp hnd).1
        have hnd' : cs.Nodup := (List.nodup_cons.mp hnd).2
        unfold buildInsertRow
        simp only [List.zip_cons_cons, List.map_cons, List.lookup_cons_self,
          Option.getD_some]
        congr 1
        have hmap : (cs.zip ds).map (fun cd =>
            (((c, v) :: cs.zip vs).lookup cd.1).getD cd.2) =
            (cs.zip ds).map (fun cd => ((cs.zip vs).lookup cd.1).getD cd.2) := by
          apply List.map_congr_left
          intro cd hcd
          have hmem : cd.1 ∈ cs := (List.of_mem_zip hcd).1
          have hne : (cd.1 == c) = false := by
            rw [beq_eq_false_iff_ne]
            intro he
            exact hc (he ▸ hmem)
          rw [List.lookup_cons, hne]
        rw [hmap]
        exact ih ds vs hnd' (by simpa using hlen) (by simpa using hdef)

/-- On a table already at the current schema, the copy step of `Migrate`
reproduces the table exactly. -/
theorem migrateTable_current_schema (schemaCols : List String)
    (defaults : List Value) (t : Table)
    (hnd : schemaCols.Nodup) (hdef : defaults.length = schemaCols.length)
    (hcols : t.cols = schemaCols) (hwf : TableWF t) :
    migrateTable schemaCols defaults t = .ok ⟨schemaCols, t.rows⟩ := by
  unfold migrateTable insertSelect
  have hall : t.cols.all (fun c => schemaCols.contains c) = true := by
    rw [List.all_eq_true]
    intro c hcmem
    have : c ∈ schemaCols := hcols ▸ hcmem
    simpa using this
  have hrows : t.rows.map (buildInsertRow schemaCols defaults t.cols) = t.rows := by
    rw [hcols]
    apply map_eq_self_of_fixed
    intro r hr
    exact buildInsertRow_self schemaCols defaults r hnd
      (by rw [hwf r hr, hcols]) hdef
  rw [if_pos hall, hrows]
  rfl

/-- C5.  On a database already at the current schema, `Migrate` succeeds
and the rename → create → copy → drop round trip preserves every table's
rows exactly (contents and counts); running it a second time succeeds and
returns the very same state, so both runs are successful no-ops on the
data. -/
theorem migrate_twice_noop_on_current_schema (db : SqlDB)
    (ha : db.account.cols = accountCols)
    (hu : db.user.cols = userCols)
    (hb : db.battle_record.cols = battleRecordCols)
    (hwa : TableWF db.account) (hwu : TableWF db.user)
    (hwb : TableWF db.battle_record) :
    ∃ db₁, Migrate db = Except.ok db₁ ∧
      db₁.account.rows = db.account.rows ∧
      db₁.user.rows = db.user.rows ∧
      db₁.battle_record.rows = db.battle_record.rows ∧
      Migrate db₁ = Except.ok db₁ := by
  have hnda : accountCols.Nodup := by decide
  have hndu : userCols.Nodup := by decide
  have hndb : battleRecordCols.Nodup := by decide
  have hdefa : accountDefaults.length = accountCols.length := by decide
  have hdefu : userDefaults.length = userCols.length := by decide
  have hdefb : battleRecordDefaults.length = battleRecordCols.length := by decide
  refine ⟨⟨⟨accountCols, db.account.rows⟩, ⟨userCols, db.user.rows⟩,
    ⟨battleRecordCols, db.battle_record.rows⟩⟩, ?_, rfl, rfl, rfl, ?_⟩
  · unfold Migrate
    rw [migrateTable_current_schema accountCols accountDefaults db.account hnda hdefa ha hwa,
      migrateTable_current_schema userCols userDefaults db.user hndu hdefu hu hwu,
      migrateTable_current_schema battleRecordCols battleRecordDefaults db.battle_record
        hndb hdefb hb hwb]
    rfl
  · unfold Migrate
    rw [migrateTable_current_schema accountCols accountDefaults _ hnda hdefa rfl
        (fun r hr => by rw [hwa r hr, ha]),
      migrateTable_current_schema userCols userDefaults _ hndu hdefu rfl
        (fun r hr => by rw [hwu r hr, hu]),
      migrateTable_current_schema battleRecordCols battleRecordDefaults _ hndb hdefb rfl
        (fun r hr => by rw [hwb r hr, hb])]
    rfl

/-- A database at the current schema with one row in each table, for the C5
witness. -/
def c5wdb : SqlDB :=
  ⟨⟨accountCols,
    [[.text "k", .text "s", .text "u1", .text "ip", .time 1, .time 2, .int 0]]⟩,
   ⟨userCols,
    [[.text "u1", .text "k", .text "", .text "n", .text "t",
      .int 1, .int 2, .int 3, .int 4, .int 5,
      .int 0, .int 0, .int 0, .int 0, .int 0,
      .int 0, .int 0, .int 0, .int 0, .int 0,
      .int 0, .int 0, .int 0,
      .time 3, .int 0]]⟩,
   ⟨battleRecordCols,
    [[.text "B1", .text "u1", .text "n", .text "p", .int 4,
      .int 1, .int 0, .int 1, .int 1, .int 1, .int 0, .int 2, .int 1,
      .int 99, .text "", .time 4, .time 5, .int 0]]⟩⟩

/-- Witness for C5 at a concrete populated database. -/
theorem migrate_twice_noop_witness :
    ∃ db₁, Migrate c5wdb = Except.ok db₁ ∧
      db₁.account.rows = c5wdb.account.rows ∧
      db₁.user.rows = c5wdb.user.rows ∧
      db₁.battle_record.rows = c5wdb.battle_record.rows ∧
      Migrate db₁ = Except.ok db₁ :=
  migrate_twice_noop_on_current_schema c5wdb rfl rfl rfl
    (by unfold TableWF; decide) (by unfold TableWF; decide)
    (by unfold TableWF; decide)

/-- A pre-migration database whose `account` table has a column,
`sesion_id`, that the current schema does not have (it was renamed to
`session_id`): the exact scenario of a renamed column. -/
def c6db : SqlDB :=
  ⟨⟨["login_key", "sesion_id", "last_user_id", "created_ip", "created",
     "last_login", "system"],
    [[.text "k", .text "s", .text "u1", .text "ip", .time 1, .time 2, .int 0]]⟩,
   ⟨userCols, []⟩,
   ⟨battleRecordCols, []⟩⟩

/-- C6 counterexample.  With a renamed column (`sesion_id` exists in the old
table but not in the new schema), the copy's
`INSERT INTO account(login_key, sesion_id, …) SELECT * FROM account_tmp`
names a column the new table does not have, so the migration FAILS with an
error instead of succeeding and silently dropping the column. -/
theorem migrate_renamed_column_fails :
    ("sesion_id" ∈ c6db.account.cols ∧ "sesion_id" ∉ accountCols) ∧
    Migrate c6db = Except.error "INSERT failed" := by
  exact ⟨by decide, rfl⟩

/-- The copy step of one table either succeeds or fails with the `INSERT`
error: in the pure model the `INSERT … SELECT` is the only statement of the
per-table loop that can fail. -/
theorem migrateTable_ok_or_insert_failed (schemaCols : List String)
    (defaults : List Value) (t : Table) :
    (∃ t', migrateTable schemaCols defaults t = Except.ok t') ∨
    migrateTable schemaCols defaults t = Except.error "INSERT failed" := by
  unfold migrateTable insertSelect
  by_cases h : (t.cols.all fun c => schemaCols.contains c) = true
  · rw [if_pos h]
    exact Or.inl ⟨_, rfl⟩
  · rw [if_neg h]
    exact Or.inr rfl

/-- A column of the old table that is absent from the target schema makes
that table's copy `INSERT` fail. -/
theorem migrateTable_missing_column (schemaCols : List String)
    (defaults : List Value) (t : Table) (c : String)
    (hc : c ∈ t.cols) (hnc : c ∉ schemaCols) :
    migrateTable schemaCols defaults t = Except.error "INSERT failed" := by
  have hall : (t.cols.all fun x => schemaCols.contains x) = false := by
    rw [List.all_eq_false]
    exact ⟨c, hc, by simpa using hnc⟩
  unfold migrateTable insertSelect
  rw [if_neg (by rw [hall]; simp)]
  rfl

/-- C6 amended.  A column present in any of the old managed tables
(`account`, `user` or `battle_record`) but absent from that table's current
schema makes `Migrate` fail (the copy `INSERT` references a column the new
table lacks, and the transaction rolls back); the copy only goes through —
preserving exactly the same-named columns — when every old column still
exists in the new schema. -/
theorem migrate_old_column_missing_fails (db : SqlDB) (c : String)
    (h : (c ∈ db.account.cols ∧ c ∉ accountCols) ∨
         (c ∈ db.user.cols ∧ c ∉ userCols) ∨
         (c ∈ db.battle_record.cols ∧ c ∉ battleRecordCols)) :
    Migrate db = Except.error "INSERT failed" := by
  unfold Migrate
  rcases h with ⟨hc, hnc⟩ | ⟨hc, hnc⟩ | ⟨hc, hnc⟩
  · rw [migrateTable_missing_column accountCols accountDefaults db.account c hc hnc]
    rfl
  · rcases migrateTable_ok_or_insert_failed accountCols accountDefaults db.account with
      ⟨a, ha⟩ | ha
    · rw [ha, migrateTable_missing_column userCols userDefaults db.user c hc hnc]
      rfl
    · rw [ha]
      rfl
  · rcases migrateTable_ok_or_insert_failed accountCols accountDefaults db.account with
      ⟨a, ha⟩ | ha
    · rcases migrateTable_ok_or_insert_failed userCols userDefaults db.user with
        ⟨u, hu⟩ | hu
      · rw [ha, hu, migrateTable_missing_column battleRecordCols battleRecordDefaults
          db.battle_record c hc hnc]
        rfl
      · rw [ha, hu]
        rfl
    · rw [ha]
      rfl

/-- A pre-migration database whose `battle_record` table has a column,
`frames`, that the current schema does not have (it was renamed to
`frame`), while `account` and `user` are already current: the failure
surfaces from the third managed table. -/
def c6wdb : SqlDB :=
  ⟨⟨accountCols, []⟩,
   ⟨userCols, []⟩,
   ⟨["battle_code", "user_id", "user_name", "pilot_name", "players",
     "aggregate", "pos", "side", "round", "win", "lose", "kill", "death",
     "frames", "result", "created", "updated", "system"],
    [[.text "B1", .text "u1", .text "n", .text "p", .int 4,
      .int 1, .int 0, .int 1, .int 1, .int 1, .int 0, .int 2, .int 1,
      .int 99, .text "", .time 4, .time 5, .int 0]]⟩⟩

/-- Witness for the amended C6 at a concrete database whose renamed column
sits in the `battle_record` table. -/
theorem migrate_old_column_missing_fails_witness :
    Migrate c6wdb = Except.error "INSERT failed" :=
  migrate_old_column_missing_fails c6wdb "frames" (by decide)

/-- A mixed battle-record table for the C1 witness: one qualifying row for
the queried user and side, one wrong-side row, one non-aggregate row, and
one row of another user. -/
def c1wdb : DBState :=
  ⟨[], [],
   [{ battle_code := "B1", user_id := "u", players := 4, aggregate := 1,
      side := 1, round := 2, win := 1, lose := 1, kill := 5, death := 3 },
    { battle_code := "B2", user_id := "u", players := 4, aggregate := 1,
      side := 2, round := 1, win := 1 },
    { battle_code := "B3", user_id := "u", players := 4, aggregate := 0,
      side := 1, round := 9 },
    { battle_code := "B1", user_id := "v", players := 4, aggregate := 1,
      side := 1, round := 7 }], []⟩

/-- Witness for C1 at a concrete table and side 1. -/
theorem totalBattleCount_is_componentwise_sum_witness :
    CalculateUserTotalBattleCount c1wdb "u" 1 =
      { Battle := ((c1wdb.battle_records.filter (fun r =>
            totalCountFilter "u" r && ((1 : Nat) == 0 || r.side == ((1 : Nat) : Int)))).map (·.round)).sum,
        Win := ((c1wdb.battle_records.filter (fun r =>
            totalCountFilter "u" r && ((1 : Nat) == 0 || r.side == ((1 : Nat) : Int)))).map (·.win)).sum,
        Lose := ((c1wdb.battle_records.filter (fun r =>
            totalCountFilter "u" r && ((1 : Nat) == 0 || r.side == ((1 : Nat) : Int)))).map (·.lose)).sum,
        Kill := ((c1wdb.battle_records.filter (fun r =>
            totalCountFilter "u" r && ((1 : Nat) == 0 || r.side == ((1 : Nat) : Int)))).map (·.kill)).sum,
        Death := ((c1wdb.battle_records.filter (fun r =>
            totalCountFilter "u" r && ((1 : Nat) == 0 || r.side == ((1 : Nat) : Int)))).map (·.death)).sum } ∧
    (c1wdb.battle_records.filter (fun r =>
        totalCountFilter "u" r && ((1 : Nat) == 0 || r.side == ((1 : Nat) : Int))) = [] →
      CalculateUserTotalBattleCount c1wdb "u" 1 = ⟨0, 0, 0, 0, 0⟩) :=
  totalBattleCount_is_componentwise_sum c1wdb "u" 1
